/-
Verification of `volumina/view3d/volumeRendering.py`.

The file shallowly embeds the two classes of the module:

* `LabelManager` — the bounded label allocator (`request` / `free`);
* `RenderingManager` (state type `RMState`) — the volume store and the
  reconciliation engine (`update`, `volume` getter/setter, `clear`,
  `setColor`, `addObject`, `removeObject`).

Machine integers: the internal volume buffer is `numpy.uint8`, embedded as
natural numbers kept below 256 by reducing written values modulo 256 at the
store (numpy's wraparound cast). Externally supplied arrays carry `ℤ` values.
Python sets become `Finset ℕ`; `numpy.unique` becomes the `Finset.image` of
the buffer over all indices. A raising call (`request` on an exhausted
allocator) returns `Option`.

The scene (`self._overview_scene`) is an external collaborator whose class is
not part of this module; it is modelled from the specification (see
`SceneState`).
-/
import Mathlib

set_option autoImplicit false

namespace VolumeRendering

/-- `NOBJECTS = 256`, the object capacity. -/
def NOBJECTS : ℕ := 256

/-- `BG_LABEL = 0`, the background label. -/
def BG_LABEL : ℕ := 0

/-- `CURRENT_LABEL = 1`, the in-progress editing label. -/
def CURRENT_LABEL : ℕ := 1

/-- The allocator `LabelManager`: `_available`, `_used`, `_n`. -/
structure LabelManager where
  available : Finset ℕ
  used : Finset ℕ
  n : ℕ
  deriving DecidableEq

namespace LabelManager

/-- `LabelManager.__init__(n)`: `available = set(range(1, n))`, `used = {}`. -/
def init (n : ℕ) : LabelManager :=
  { available := Finset.Ico 1 n, used := ∅, n := n }

/-- `LabelManager.request()`: if `available` is empty raise (here: `none`);
otherwise take `min(available)`, move it from `available` to `used` and
return it. -/
def request (m : LabelManager) : Option (ℕ × LabelManager) :=
  if h : m.available.Nonempty then
    let label := m.available.min' h
    some (label,
      { available := m.available.erase label
        used := insert label m.used
        n := m.n })
  else
    none

/-- `LabelManager.free(label)`.  `free None` resets both sets;
`free l` moves `l` back to `available` when it is used, otherwise no-op. -/
def free (m : LabelManager) (label : Option ℕ) : LabelManager :=
  match label with
  | none => { available := Finset.Ico 1 m.n, used := ∅, n := m.n }
  | some l =>
      if l ∈ m.used then
        { available := insert l m.available, used := m.used.erase l, n := m.n }
      else
        m

/-- One external call to the allocator: a `request()` (state unchanged when
it raises) or a `free(label)`. -/
inductive Op where
  | request : Op
  | free : Option ℕ → Op
  deriving DecidableEq

/-- The state after one call. -/
def step (m : LabelManager) : Op → LabelManager
  | .request =>
      match m.request with
      | some (_, m2) => m2
      | none => m
  | .free l => m.free l

/-- The state after a sequence of calls. -/
def runOps (m : LabelManager) (ops : List Op) : LabelManager :=
  ops.foldl step m

/-- The allocator invariant: `n` fixed, `available ∪ used = [1, n)`,
`available ∩ used = ∅`. -/
def Inv (n : ℕ) (m : LabelManager) : Prop :=
  m.n = n ∧ m.available ∪ m.used = Finset.Ico 1 n ∧ Disjoint m.available m.used

/-- `k` consecutive `request()` calls; `none` as soon as one raises. -/
def requestIter : ℕ → LabelManager → Option LabelManager
  | 0, m => some m
  | k + 1, m =>
      match m.request with
      | some (_, m2) => requestIter k m2
      | none => none

end LabelManager

/-- Modelled from the spec: the `Scene` external collaborator
(`self._overview_scene`), whose class is not part of this module.  Per the
spec it owns `visible_objects` (the set of currently rendered labels,
"a live, externally mutable set reference"), answers `has_object(label)`
(cached geometry), executes `add_object` / `remove_object` on the visible
set, and holds a busy flag set by `set_busy`. -/
structure SceneState where
  visible : Finset ℕ
  cached : Finset ℕ
  busy : Bool
  deriving DecidableEq

namespace SceneState

/-- `scene.remove_object(label)`: the label stops being rendered. -/
def remove_object (sc : SceneState) (label : ℕ) : SceneState :=
  { sc with visible := sc.visible.erase label }

/-- `scene.add_object(label)`: the label becomes rendered. -/
def add_object (sc : SceneState) (label : ℕ) : SceneState :=
  { sc with visible := insert label sc.visible }

/-- `scene.has_object(label)`: cached geometry exists for the label. -/
def has_object (sc : SceneState) (label : ℕ) : Bool :=
  label ∈ sc.cached

/-- `scene.set_busy(b)`. -/
def set_busy (sc : SceneState) (b : Bool) : SceneState :=
  { sc with busy := b }

end SceneState

/-- An RGB color triple (`colorsys.hsv_to_rgb` output or a caller value). -/
abbrev Color : Type := ℚ × ℚ × ℚ

/-- The state of a `RenderingManager` whose volume was set up with natural
(externally visible) shape `a × b × c`.  `setup` stores the buffer with
reversed shape ( `shape[::-1]` ), so the internal buffer `volume` is indexed
`Fin c → Fin b → Fin a`; it is a `numpy.uint8` buffer, so every entry is a
natural number below 256 (written values are reduced modulo 256). -/
structure RMState (a b c : ℕ) where
  volume : Fin c → Fin b → Fin a → ℕ
  dirty : Bool
  ready : Bool
  cmap : ℕ → Option Color
  labelmgr : LabelManager
  scene : SceneState

/-- The set of distinct values in the buffer: `set(numpy.unique(volume))`. -/
def volumeLabels {a b c : ℕ} (v : Fin c → Fin b → Fin a → ℕ) : Finset ℕ :=
  Finset.image (fun p : Fin c × Fin b × Fin a => v p.1 p.2.1 p.2.2) Finset.univ

namespace RMState

variable {a b c : ℕ}

/-- `setup(shape)`: the buffer becomes fresh zeros (reversed shape is the
index order of `RMState.volume`), and `ready` is set. -/
def setup (s : RMState a b c) : RMState a b c :=
  { s with volume := fun _ _ _ => 0, ready := true }

/-- `new_labels` of a pass: distinct buffer values with `BG_LABEL` discarded
(`new_labels.remove(BG_LABEL)` under `try/except KeyError`). -/
def newLabels (s : RMState a b c) : Finset ℕ :=
  (volumeLabels s.volume).erase BG_LABEL

/-- The labels removed by the pass: the loop runs `remove_object(label)` for
every `label ∈ old_labels - new_labels`, where `old_labels` is the scene's
visible set. -/
def removeSet (s : RMState a b c) : Finset ℕ :=
  s.scene.visible \ newLabels s

/-- `old_labels` right after the removal loop: each `remove_object` erased
its label from the live `visible_objects` set that `old_labels` aliases. -/
def oldAfterRemoves (s : RMState a b c) : Finset ℕ :=
  s.scene.visible \ removeSet s

/-- `old_labels` after `old_labels.remove(CURRENT_LABEL)` under
`try/except KeyError`: the erase acts on the same live set. -/
def oldAfterExclusion (s : RMState a b c) : Finset ℕ :=
  (oldAfterRemoves s).erase CURRENT_LABEL

/-- `labels_to_add = new_labels - old_labels`. -/
def labelsToAdd (s : RMState a b c) : Finset ℕ :=
  newLabels s \ oldAfterExclusion s

/-- `known = set(filter(self._overview_scene.has_object, labels_to_add))`
before the `CURRENT_LABEL` adjustment. -/
def known0 (s : RMState a b c) : Finset ℕ :=
  (labelsToAdd s).filter (fun l => s.scene.has_object l)

/-- `known` after `try: known.remove(CURRENT_LABEL); generate.add(CURRENT_LABEL)`:
when `CURRENT_LABEL ∉ known` the `remove` raises first and nothing happens. -/
def knownSet (s : RMState a b c) : Finset ℕ :=
  if CURRENT_LABEL ∈ known0 s then (known0 s).erase CURRENT_LABEL else known0 s

/-- `generate` after the same `try` block. -/
def generateSet (s : RMState a b c) : Finset ℕ :=
  if CURRENT_LABEL ∈ known0 s then insert CURRENT_LABEL (labelsToAdd s \ known0 s)
  else labelsToAdd s \ known0 s

/-- The synchronous commands a pass issued, and the batch handed to the
`MeshGenerator` worker (empty when no batch was dispatched). -/
structure UpdateLog where
  removes : Finset ℕ
  cacheAdds : Finset ℕ
  generated : Finset ℕ
  deriving DecidableEq

/-- `update()`: return unchanged when the dirty flag is clear; otherwise
clear the flag, diff the label sets, run the `remove_object` loop, exclude
`CURRENT_LABEL` from the (live) old set, run `add_object` for every known
label, and when `generate` is nonempty call `set_busy(True)` and start a
`MeshGenerator` batch for `generate`.  Alongside the state, the commands the
pass issued are returned. -/
def update (s : RMState a b c) : RMState a b c × UpdateLog :=
  if s.dirty then
    ({ s with
        dirty := false
        scene :=
          { visible := oldAfterExclusion s ∪ knownSet s
            cached := s.scene.cached
            busy := if (generateSet s).Nonempty then true else s.scene.busy } },
     { removes := removeSet s, cacheAdds := knownSet s, generated := generateSet s })
  else
    (s, { removes := ∅, cacheAdds := ∅, generated := ∅ })

/-- `_on_mesh_generated(label, mesh)`: the sentinel `(0, None)` clears the
busy flag; any other pair adds the object to the scene. -/
def onMeshGenerated (s : RMState a b c) (label : ℕ) (hasMesh : Bool) : RMState a b c :=
  if label = 0 && !hasMesh then { s with scene := s.scene.set_busy false }
  else { s with scene := s.scene.add_object label }

/-- `setColor(label, color)`. -/
def setColor (s : RMState a b c) (label : ℕ) (color : Color) : RMState a b c :=
  { s with cmap := fun x => if x = label then some color else s.cmap x }

/-- The `volume` property getter: `numpy.transpose(self._volume)`. -/
def getVolume (s : RMState a b c) : Fin a → Fin b → Fin c → ℕ :=
  fun i j k => s.volume k j i

/-- The buffer write of the `volume` setter: `self._volume[:] = new_volume`
(numpy wraparound cast into the `uint8` buffer) followed by
`self._dirty = True`.  `new_volume = numpy.transpose(value)`. -/
def setVolumeWrite (s : RMState a b c) (value : Fin a → Fin b → Fin c → ℤ) :
    RMState a b c :=
  { s with
      volume := fun k j i => ((value i j k) % 256).toNat
      dirty := true }

/-- The `volume` property setter: when any element of
`numpy.transpose(value)` differs from the buffer (integer comparison, numpy
promotes the `uint8` buffer), write the new value, set the dirty flag and
call `update()`; otherwise do nothing. -/
def setVolume (s : RMState a b c) (value : Fin a → Fin b → Fin c → ℤ) :
    RMState a b c :=
  if ∃ k : Fin c, ∃ j : Fin b, ∃ i : Fin a, value i j k ≠ (s.volume k j i : ℤ) then
    ((s.setVolumeWrite value).update).1
  else
    s

/-- `addObject(color)`: request a label, record the color for it, return it.
The `color=None` random-color branch is modelled by the caller passing the
drawn color. -/
def addObject (s : RMState a b c) (color : Color) : Option (ℕ × RMState a b c) :=
  (s.labelmgr.request).map
    (fun p => (p.1, ({ s with labelmgr := p.2 }).setColor p.1 color))

/-- `removeObject(label)`: `self.labelmgr.free(label)`, nothing else. -/
def removeObject (s : RMState a b c) (label : ℕ) : RMState a b c :=
  { s with labelmgr := s.labelmgr.free (some label) }

/-- `clear()`: zero the buffer and reset the allocator. -/
def clear (s : RMState a b c) : RMState a b c :=
  { s with volume := fun _ _ _ => 0, labelmgr := s.labelmgr.free none }

/-- The `uint8` well-formedness of the buffer. -/
def VolOK (s : RMState a b c) : Prop :=
  ∀ (k : Fin c) (j : Fin b) (i : Fin a), s.volume k j i < 256

end RMState

/-- A one-voxel manager state used to instantiate the theorems on concrete
inputs: buffer value `v`, dirty flag `d`, scene `sc`, allocator `lm`. -/
def mkState1 (v : ℕ) (d : Bool) (sc : SceneState) (lm : LabelManager) :
    RMState 1 1 1 :=
  { volume := fun _ _ _ => v
    dirty := d
    ready := true
    cmap := fun _ => none
    labelmgr := lm
    scene := sc }

/-- A three-voxel manager state (natural shape `3 × 1 × 1`) whose buffer
holds the values `v0, v1, v2`. -/
def mkState3 (v0 v1 v2 : ℕ) (d : Bool) (sc : SceneState) (lm : LabelManager) :
    RMState 3 1 1 :=
  { volume := fun _ _ i => if i.val = 0 then v0 else if i.val = 1 then v1 else v2
    dirty := d
    ready := true
    cmap := fun _ => none
    labelmgr := lm
    scene := sc }

/-
Lemmas and claim theorems.
-/

namespace LabelManager

theorem request_of_nonempty (m : LabelManager) (h : m.available.Nonempty) :
    m.request = some (m.available.min' h,
      { available := m.available.erase (m.available.min' h)
        used := insert (m.available.min' h) m.used
        n := m.n }) := by
  simp only [request, dif_pos h]

theorem request_of_empty (m : LabelManager) (h : m.available = ∅) :
    m.request = none := by
  simp [request, h]

theorem inv_init (n : ℕ) : Inv n (init n) := by
  refine ⟨rfl, ?_, ?_⟩ <;> simp [init]

theorem inv_step {n : ℕ} {m : LabelManager} (h : Inv n m) (op : Op) :
    Inv n (step m op) := by
  obtain ⟨hn, hu, hd⟩ := h
  cases op with
  | request =>
      by_cases hne : m.available.Nonempty
      · have hmem : m.available.min' hne ∈ m.available := m.available.min'_mem hne
        rw [step, request_of_nonempty m hne]
        refine ⟨hn, ?_, ?_⟩
        · rw [← hu]
          ext x
          by_cases hx : x = m.available.min' hne <;>
            simp [hx, Finset.mem_erase, Finset.mem_insert, hmem]
        · rw [Finset.disjoint_insert_right]
          exact ⟨Finset.not_mem_erase _ _,
            Finset.disjoint_of_subset_left (Finset.erase_subset _ _) hd⟩
      · rw [Finset.not_nonempty_iff_eq_empty] at hne
        rw [step, request_of_empty m hne]
        exact ⟨hn, hu, hd⟩
  | free l =>
      cases l with
      | none =>
          refine ⟨hn, ?_, ?_⟩ <;> simp [step, free, hn]
      | some l =>
          by_cases hl : l ∈ m.used
          · rw [step, free]
            simp only [hl, if_true]
            refine ⟨hn, ?_, ?_⟩
            · rw [← hu]
              ext x
              by_cases hx : x = l <;>
                simp [hx, Finset.mem_erase, Finset.mem_insert, hl]
            · rw [Finset.disjoint_insert_left]
              exact ⟨Finset.not_mem_erase _ _,
                Finset.disjoint_of_subset_right (Finset.erase_subset _ _) hd⟩
          · rw [step, free]
            simp only [hl, if_false]
            exact ⟨hn, hu, hd⟩

theorem inv_runOps (n : ℕ) (ops : List Op) : Inv n (runOps (init n) ops) := by
  suffices h : ∀ (m : LabelManager), Inv n m → Inv n (runOps m ops) from
    h _ (inv_init n)
  induction ops with
  | nil => intro m hm; exact hm
  | cons op ops ih =>
      intro m hm
      exact ih _ (inv_step hm op)

theorem requestIter_add (p q : ℕ) (m : LabelManager) :
    requestIter (p + q) m = (requestIter p m).bind (requestIter q) := by
  induction p generalizing m with
  | zero => simp [requestIter]
  | succ p ih =>
      rw [Nat.succ_add]
      rw [requestIter, requestIter]
      cases m.request with
      | none => simp
      | some x => simpa using ih x.2

theorem min'_Ico (a b : ℕ) (h : a < b) (hne : (Finset.Ico a b).Nonempty) :
    (Finset.Ico a b).min' hne = a := by
  refine le_antisymm (Finset.min'_le _ _ (by simp [h])) ?_
  refine Finset.le_min' _ _ _ ?_
  intro y hy
  exact (Finset.mem_Ico.mp hy).1

/-- Running the allocator from a canonical intermediate state: after `k`
more successful requests the sets advance by `k`. -/
theorem requestIter_Ico (k : ℕ) : ∀ (a n : ℕ), 1 ≤ a → a + k ≤ n →
    requestIter k { available := Finset.Ico a n, used := Finset.Ico 1 a, n := n } =
      some { available := Finset.Ico (a + k) n, used := Finset.Ico 1 (a + k), n := n } := by
  induction k with
  | zero => intro a n _ _; simp [requestIter]
  | succ k ih =>
      intro a n ha hak
      have haltn : a < n := lt_of_lt_of_le (by omega) hak
      have hne : (Finset.Ico a n).Nonempty := ⟨a, by simp [haltn]⟩
      rw [requestIter, request_of_nonempty _ hne]
      simp only
      have hmin : (Finset.Ico a n).min' hne = a := min'_Ico a n haltn hne
      rw [hmin]
      have he : (Finset.Ico a n).erase a = Finset.Ico (a + 1) n := by
        ext x
        simp only [Finset.mem_erase, Finset.mem_Ico]
        omega
      have hi : insert a (Finset.Ico 1 a) = Finset.Ico 1 (a + 1) := by
        ext x
        simp only [Finset.mem_insert, Finset.mem_Ico]
        omega
      rw [he, hi]
      have := ih (a + 1) n (by omega) (by omega)
      rw [this]
      have h1 : a + 1 + k = a + (k + 1) := by omega
      rw [h1]

theorem requestIter_init (k n : ℕ) (h : 1 + k ≤ n) :
    requestIter k (init n) =
      some { available := Finset.Ico (1 + k) n, used := Finset.Ico 1 (1 + k), n := n } := by
  have hinit : init n = { available := Finset.Ico 1 n, used := Finset.Ico 1 1, n := n } := by
    simp [init]
  rw [hinit]
  exact requestIter_Ico k 1 n le_rfl h

end LabelManager

/-- C2: for every sequence of `request()` / `free()` calls on a
`LabelManager` constructed with capacity `n` (raising and no-op calls
included), `available` and `used` stay disjoint and their union stays
exactly the integer range `[1, n)`. -/
theorem claim_C2_allocator_invariant (n : ℕ) (ops : List LabelManager.Op) :
    (LabelManager.runOps (LabelManager.init n) ops).available ∪
        (LabelManager.runOps (LabelManager.init n) ops).used = Finset.Ico 1 n ∧
      Disjoint (LabelManager.runOps (LabelManager.init n) ops).available
        (LabelManager.runOps (LabelManager.init n) ops).used :=
  ⟨(LabelManager.inv_runOps n ops).2.1, (LabelManager.inv_runOps n ops).2.2⟩

/-- C8: whenever `available` is non-empty, `request()` returns its minimum
and moves exactly that label to `used`; whenever `available` is empty the
call raises (returns `none`), and for a fresh allocator with `N = 256` the
first 255 requests succeed and the 256th raises. -/
theorem claim_C8_request_minimum (m : LabelManager) :
    (∀ h : m.available.Nonempty,
        m.request = some (m.available.min' h,
          { available := m.available.erase (m.available.min' h)
            used := insert (m.available.min' h) m.used
            n := m.n })) ∧
      (m.available = ∅ → m.request = none) ∧
      (m.available = ∅ → m.step LabelManager.Op.request = m) ∧
      (LabelManager.requestIter 255 (LabelManager.init NOBJECTS)).isSome = true ∧
      LabelManager.requestIter 256 (LabelManager.init NOBJECTS) = none := by
  refine ⟨LabelManager.request_of_nonempty m, LabelManager.request_of_empty m,
    ?_, ?_, ?_⟩
  · intro h
    unfold LabelManager.step
    rw [LabelManager.request_of_empty m h]
  · rw [show NOBJECTS = 256 from rfl,
      LabelManager.requestIter_init 255 256 (by norm_num)]
    rfl
  · rw [show NOBJECTS = 256 from rfl, show (256 : ℕ) = 255 + 1 from rfl,
      LabelManager.requestIter_add 255 1,
      LabelManager.requestIter_init 255 256 (by norm_num)]
    rw [Option.some_bind]
    rw [LabelManager.requestIter,
      LabelManager.request_of_empty _ (by simp)]

/-- C8 witness: instantiating the theorem at a capacity-3 allocator, whose
`available` set `{1, 2}` is non-empty: the first request yields label 1. -/
theorem claim_C8_request_minimum_witness :
    ((LabelManager.init 3).available).Nonempty ∧
      (LabelManager.init 3).request = some (1,
        { available := ({2} : Finset ℕ), used := ({1} : Finset ℕ), n := 3 }) := by
  have h : ((LabelManager.init 3).available).Nonempty := ⟨1, by decide⟩
  refine ⟨h, ?_⟩
  have heq := (claim_C8_request_minimum (LabelManager.init 3)).1 h
  have hmin : (LabelManager.init 3).available.min' h = 1 :=
    LabelManager.min'_Ico 1 3 (by norm_num) h
  rw [heq, hmin]
  decide

theorem mem_volumeLabels {a b c : ℕ} (v : Fin c → Fin b → Fin a → ℕ) (l : ℕ) :
    l ∈ volumeLabels v ↔ ∃ (k : Fin c) (j : Fin b) (i : Fin a), v k j i = l := by
  constructor
  · intro h
    obtain ⟨p, _, hp⟩ := Finset.mem_image.mp h
    exact ⟨p.1, p.2.1, p.2.2, hp⟩
  · rintro ⟨k, j, i, h⟩
    exact Finset.mem_image.mpr ⟨(k, j, i), Finset.mem_univ _, h⟩

theorem update_snd_of_dirty {a b c : ℕ} (s : RMState a b c) (hd : s.dirty = true) :
    (s.update).2 =
      { removes := s.removeSet, cacheAdds := s.knownSet, generated := s.generateSet } := by
  simp [RMState.update, hd]

theorem update_fst_of_dirty {a b c : ℕ} (s : RMState a b c) (hd : s.dirty = true) :
    (s.update).1 =
      { s with
          dirty := false
          scene :=
            { visible := s.oldAfterExclusion ∪ s.knownSet
              cached := s.scene.cached
              busy := if (s.generateSet).Nonempty then true else s.scene.busy } } := by
  simp [RMState.update, hd]

theorem current_mem_labelsToAdd {a b c : ℕ} (s : RMState a b c)
    (hp : CURRENT_LABEL ∈ volumeLabels s.volume) :
    CURRENT_LABEL ∈ s.labelsToAdd := by
  refine Finset.mem_sdiff.mpr ⟨Finset.mem_erase.mpr ⟨by decide, hp⟩, ?_⟩
  exact Finset.not_mem_erase _ _

/-- C1: in every reconciliation pass (dirty flag set) in which
`CURRENT_LABEL` occurs in the volume buffer, `CURRENT_LABEL` is not among
the labels served synchronously from cache (`add_object` loop) and is
always in the batch handed to the mesh worker — whatever
`scene.has_object(CURRENT_LABEL)` says. -/
theorem claim_C1_current_label_always_generated {a b c : ℕ} (s : RMState a b c)
    (hd : s.dirty = true) (hp : CURRENT_LABEL ∈ volumeLabels s.volume) :
    CURRENT_LABEL ∉ (s.update).2.cacheAdds ∧ CURRENT_LABEL ∈ (s.update).2.generated := by
  rw [update_snd_of_dirty s hd]
  have hadd : CURRENT_LABEL ∈ s.labelsToAdd := current_mem_labelsToAdd s hp
  constructor
  · show CURRENT_LABEL ∉ s.knownSet
    unfold RMState.knownSet
    split
    · exact Finset.not_mem_erase _ _
    · assumption
  · show CURRENT_LABEL ∈ s.generateSet
    unfold RMState.generateSet
    split
    · exact Finset.mem_insert_self _ _
    · rename_i hnk
      exact Finset.mem_sdiff.mpr ⟨hadd, hnk⟩

/-- C1 witness: a one-voxel volume holding `CURRENT_LABEL`, with the scene
both rendering it and having it cached: it still goes to `generate`. -/
theorem claim_C1_current_label_always_generated_witness :
    (mkState1 1 true { visible := {1}, cached := {1}, busy := false }
        (LabelManager.init NOBJECTS)).dirty = true ∧
      CURRENT_LABEL ∈ volumeLabels (mkState1 1 true
        { visible := {1}, cached := {1}, busy := false }
        (LabelManager.init NOBJECTS)).volume ∧
      (CURRENT_LABEL ∉ ((mkState1 1 true { visible := {1}, cached := {1}, busy := false }
          (LabelManager.init NOBJECTS)).update).2.cacheAdds ∧
        CURRENT_LABEL ∈ ((mkState1 1 true { visible := {1}, cached := {1}, busy := false }
          (LabelManager.init NOBJECTS)).update).2.generated) :=
  ⟨rfl, by decide,
    claim_C1_current_label_always_generated _ rfl (by decide)⟩

theorem update_volume_eq {a b c : ℕ} (s : RMState a b c) :
    (s.update).1.volume = s.volume := by
  unfold RMState.update
  split <;> rfl

/-- C7: setting the `volume` property to a value element-wise equal to the
current volume (as read through the property) is a complete no-op: no dirty
flag, no `update()`, no state change at all. -/
theorem claim_C7_setter_noop {a b c : ℕ} (s : RMState a b c)
    (v : Fin a → Fin b → Fin c → ℤ)
    (h : ∀ (i : Fin a) (j : Fin b) (k : Fin c), v i j k = (s.getVolume i j k : ℤ)) :
    s.setVolume v = s := by
  unfold RMState.setVolume
  rw [if_neg]
  push_neg
  intro k j i
  exact h i j k

/-- C7 witness: writing the value the one-voxel volume already holds. -/
theorem claim_C7_setter_noop_witness :
    (∀ (i j k : Fin 1), (fun (_ : Fin 1) (_ : Fin 1) (_ : Fin 1) => (5 : ℤ)) i j k =
        ((mkState1 5 false { visible := ∅, cached := ∅, busy := false }
          (LabelManager.init NOBJECTS)).getVolume i j k : ℤ)) ∧
      (mkState1 5 false { visible := ∅, cached := ∅, busy := false }
          (LabelManager.init NOBJECTS)).setVolume
          (fun _ _ _ => (5 : ℤ)) =
        mkState1 5 false { visible := ∅, cached := ∅, busy := false }
          (LabelManager.init NOBJECTS) :=
  ⟨by decide, claim_C7_setter_noop _ _ (by decide)⟩

/-- C9: for an allocated label, `removeObject(label)` only moves the label
from `used` back to `available` in the allocator; the color map, the volume
buffer, the dirty flag and the scene (its visible objects included) are
untouched — no `remove_object` command reaches the scene. -/
theorem claim_C9_removeObject_frame {a b c : ℕ} (s : RMState a b c) (l : ℕ)
    (h : l ∈ s.labelmgr.used) :
    s.removeObject l =
      { s with
          labelmgr :=
            { available := insert l s.labelmgr.available
              used := s.labelmgr.used.erase l
              n := s.labelmgr.n } } := by
  unfold RMState.removeObject LabelManager.free
  simp [h]

/-- C9 witness: freeing the allocated label 1 of a concrete state. -/
theorem claim_C9_removeObject_frame_witness :
    1 ∈ (mkState1 0 false { visible := {1}, cached := ∅, busy := false }
        { available := {2, 3}, used := {1}, n := 4 }).labelmgr.used ∧
      (mkState1 0 false { visible := {1}, cached := ∅, busy := false }
          { available := {2, 3}, used := {1}, n := 4 }).removeObject 1 =
        { mkState1 0 false { visible := {1}, cached := ∅, busy := false }
            { available := {2, 3}, used := {1}, n := 4 } with
            labelmgr :=
              { available := insert 1 ({2, 3} : Finset ℕ)
                used := ({1} : Finset ℕ).erase 1
                n := 4 } } :=
  ⟨by decide, claim_C9_removeObject_frame _ 1 (by decide)⟩

/-- C10: the buffer is `uint8`: from a well-formed state, every element
stored by the `volume` setter equals the written element reduced modulo 256,
the buffer stays below 256, and reading the property returns those reduced
values. -/
theorem claim_C10_uint8_buffer {a b c : ℕ} (s : RMState a b c)
    (v : Fin a → Fin b → Fin c → ℤ) (hok : s.VolOK) :
    (s.setup).VolOK ∧
      (s.setVolume v).VolOK ∧
      ∀ (i : Fin a) (j : Fin b) (k : Fin c),
        (s.setVolume v).getVolume i j k = ((v i j k) % 256).toNat := by
  refine ⟨fun _ _ _ => show (0 : ℕ) < 256 by norm_num, ?_⟩
  unfold RMState.setVolume
  split
  · constructor
    · intro k j i
      rw [update_volume_eq]
      show ((v i j k) % 256).toNat < 256
      have h1 : 0 ≤ (v i j k) % 256 := Int.emod_nonneg _ (by norm_num)
      have h2 : (v i j k) % 256 < 256 := Int.emod_lt_of_pos _ (by norm_num)
      omega
    · intro i j k
      unfold RMState.getVolume
      rw [update_volume_eq]
      rfl
  · rename_i hsame
    push_neg at hsame
    refine ⟨hok, ?_⟩
    intro i j k
    have heq : v i j k = (s.volume k j i : ℤ) := hsame k j i
    have hlt : s.volume k j i < 256 := hok k j i
    unfold RMState.getVolume
    rw [heq]
    have hmod : ((s.volume k j i : ℤ)) % 256 = (s.volume k j i : ℤ) :=
      Int.emod_eq_of_lt (Int.natCast_nonneg _) (by exact_mod_cast hlt)
    rw [hmod, Int.toNat_natCast]

/-- C10 witness: writing `-1` into a zeroed one-voxel buffer stores
`255 = (-1) mod 256`. -/
theorem claim_C10_uint8_buffer_witness :
    (mkState1 0 false { visible := ∅, cached := ∅, busy := false }
        (LabelManager.init NOBJECTS)).VolOK ∧
      ∀ (i j k : Fin 1),
        ((mkState1 0 false { visible := ∅, cached := ∅, busy := false }
            (LabelManager.init NOBJECTS)).setVolume
            (fun _ _ _ => (-1 : ℤ))).getVolume i j k =
          (((-1 : ℤ)) % 256).toNat :=
  ⟨fun _ _ _ => show (0 : ℕ) < 256 by norm_num,
    (claim_C10_uint8_buffer _ (fun _ _ _ => (-1 : ℤ))
      (fun _ _ _ => show (0 : ℕ) < 256 by norm_num)).2.2⟩

/-- C6 (corrected): the write–read round trip through the `volume` property
is the identity for arrays whose elements all lie in `[0, 256)`; the axis
permutation is undone on read. -/
theorem claim_C6_roundtrip_uint8_range {a b c : ℕ} (s : RMState a b c)
    (v : Fin a → Fin b → Fin c → ℤ)
    (hr : ∀ (i : Fin a) (j : Fin b) (k : Fin c), 0 ≤ v i j k ∧ v i j k < 256) :
    ∀ (i : Fin a) (j : Fin b) (k : Fin c),
      ((s.setVolume v).getVolume i j k : ℤ) = v i j k := by
  unfold RMState.setVolume
  split
  · intro i j k
    unfold RMState.getVolume
    rw [update_volume_eq]
    show (((v i j k % 256).toNat : ℤ)) = v i j k
    rw [Int.emod_eq_of_lt (hr i j k).1 (hr i j k).2]
    exact Int.toNat_of_nonneg (hr i j k).1
  · rename_i hsame
    push_neg at hsame
    intro i j k
    exact (hsame k j i).symm

/-- C6 counterexample: the claim fails for the array constantly `300` on a
`1 × 1 × 1` volume: reading back yields `44 = 300 mod 256`, not `300`. -/
theorem claim_C6_roundtrip_counterexample :
    ((mkState1 0 false { visible := ∅, cached := ∅, busy := false }
        (LabelManager.init NOBJECTS)).setVolume
        (fun _ _ _ => (300 : ℤ))).getVolume 0 0 0 = 44 ∧
      ((44 : ℤ)) ≠ 300 := by
  constructor
  · decide
  · decide

/-- C6 witness: round trip of a one-voxel array holding `7 ∈ [0, 256)`. -/
theorem claim_C6_roundtrip_uint8_range_witness :
    (∀ (i j k : Fin 1), 0 ≤ (fun (_ : Fin 1) (_ : Fin 1) (_ : Fin 1) => (7 : ℤ)) i j k ∧
        (fun (_ : Fin 1) (_ : Fin 1) (_ : Fin 1) => (7 : ℤ)) i j k < 256) ∧
      ∀ (i j k : Fin 1),
        (((mkState1 0 false { visible := ∅, cached := ∅, busy := false }
            (LabelManager.init NOBJECTS)).setVolume
            (fun _ _ _ => (7 : ℤ))).getVolume i j k : ℤ) = 7 :=
  ⟨by decide, claim_C6_roundtrip_uint8_range _ (fun _ _ _ => (7 : ℤ)) (by decide)⟩

/-- C5 (corrected): a differing write through the `volume` setter sets the
dirty flag before handing the state to `update()` (which the setter then
invokes), any `update()` leaves the dirty flag cleared, but `clear()` zeroes
the buffer without touching the dirty flag. -/
theorem claim_C5_dirty_discipline {a b c : ℕ} (s : RMState a b c)
    (v : Fin a → Fin b → Fin c → ℤ)
    (hdiff : ∃ (k : Fin c) (j : Fin b) (i : Fin a), v i j k ≠ (s.volume k j i : ℤ)) :
    (s.setVolumeWrite v).dirty = true ∧
      s.setVolume v = ((s.setVolumeWrite v).update).1 ∧
      (s.clear).dirty = s.dirty ∧
      ∀ (t : RMState a b c), (t.update).1.dirty = false := by
  refine ⟨rfl, ?_, rfl, ?_⟩
  · unfold RMState.setVolume
    rw [if_pos hdiff]
  · intro t
    unfold RMState.update
    split
    · rfl
    · rename_i h
      simpa using h

/-- C5 counterexample: `clear()` on a nonzero one-voxel volume changes the
buffer content (5 becomes 0) yet leaves the dirty flag false, so the claim
that every content-changing operation sets the dirty flag is false. -/
theorem claim_C5_dirty_counterexample :
    (mkState1 5 false { visible := ∅, cached := ∅, busy := false }
        (LabelManager.init NOBJECTS)).volume 0 0 0 = 5 ∧
      ((mkState1 5 false { visible := ∅, cached := ∅, busy := false }
          (LabelManager.init NOBJECTS)).clear).volume 0 0 0 = 0 ∧
      ((mkState1 5 false { visible := ∅, cached := ∅, busy := false }
          (LabelManager.init NOBJECTS)).clear).dirty = false := by
  refine ⟨rfl, rfl, rfl⟩

/-- C5 witness: a differing one-voxel write. -/
theorem claim_C5_dirty_discipline_witness :
    (∃ (k j i : Fin 1), (fun (_ : Fin 1) (_ : Fin 1) (_ : Fin 1) => (5 : ℤ)) i j k ≠
        ((mkState1 0 false { visible := ∅, cached := ∅, busy := false }
          (LabelManager.init NOBJECTS)).volume k j i : ℤ)) ∧
      ((mkState1 0 false { visible := ∅, cached := ∅, busy := false }
          (LabelManager.init NOBJECTS)).setVolumeWrite
          (fun _ _ _ => (5 : ℤ))).dirty = true :=
  ⟨by decide,
    (claim_C5_dirty_discipline _ (fun _ _ _ => (5 : ℤ)) (by decide)).1⟩

theorem current_not_mem_knownSet {a b c : ℕ} (s : RMState a b c) :
    CURRENT_LABEL ∉ s.knownSet := by
  unfold RMState.knownSet
  split
  · exact Finset.not_mem_erase _ _
  · assumption

/-- C3 counterexample: in the spec's scenario 2 (volume labels `{0,2,3}`,
scene showing `{2,4}`, label 3 not cached) the pass removes 4 and generates
`{3}` — but no `add_object` is issued at all: label 2 is already visible, so
it is not in `labels_to_add` and is not re-added from cache. -/
theorem claim_C3_scenario2_counterexample :
    ((mkState3 0 2 3 true { visible := {2, 4}, cached := {2, 4}, busy := false }
        (LabelManager.init NOBJECTS)).update).2.removes = {4} ∧
      ((mkState3 0 2 3 true { visible := {2, 4}, cached := {2, 4}, busy := false }
          (LabelManager.init NOBJECTS)).update).2.generated = {3} ∧
      ((mkState3 0 2 3 true { visible := {2, 4}, cached := {2, 4}, busy := false }
          (LabelManager.init NOBJECTS)).update).2.cacheAdds = ∅ := by
  refine ⟨by decide, by decide, by decide⟩

/-- C3 (corrected): with volume labels `{0,2,3}`, scene visible set `{2,4}`
and label 3 uncached, a dirty pass calls `remove_object(4)` and dispatches
the batch `{3}`, and serves nothing synchronously from cache (in particular
not label 2, which is already visible and hence not in `labels_to_add`). -/
theorem claim_C3_scenario2 {a b c : ℕ} (s : RMState a b c)
    (hd : s.dirty = true)
    (hvol : volumeLabels s.volume = {0, 2, 3})
    (hvis : s.scene.visible = {2, 4})
    (hnc : 3 ∉ s.scene.cached) :
    (s.update).2.removes = {4} ∧ (s.update).2.cacheAdds = ∅ ∧
      (s.update).2.generated = {3} := by
  rw [update_snd_of_dirty s hd]
  have hnew : s.newLabels = {2, 3} := by
    unfold RMState.newLabels
    rw [hvol]
    decide
  have hrem : s.removeSet = {4} := by
    unfold RMState.removeSet
    rw [hvis, hnew]
    decide
  have hold : s.oldAfterExclusion = {2} := by
    unfold RMState.oldAfterExclusion RMState.oldAfterRemoves RMState.removeSet
    rw [hvis, hnew]
    decide
  have hadd : s.labelsToAdd = {3} := by
    unfold RMState.labelsToAdd
    rw [hnew, hold]
    decide
  have hobj : s.scene.has_object 3 = false := by
    unfold SceneState.has_object
    exact decide_eq_false hnc
  have hk0 : s.known0 = ∅ := by
    unfold RMState.known0
    rw [hadd, Finset.filter_singleton, if_neg (by simp [hobj])]
  have hkn : s.knownSet = ∅ := by
    unfold RMState.knownSet
    rw [hk0]
    decide
  have hgen : s.generateSet = {3} := by
    unfold RMState.generateSet
    rw [hk0, hadd]
    decide
  exact ⟨hrem, hkn, hgen⟩

/-- C3 witness: the corrected scenario instantiated on the concrete
three-voxel state. -/
theorem claim_C3_scenario2_witness :
    ((mkState3 0 2 3 true { visible := {2, 4}, cached := {2, 4}, busy := false }
        (LabelManager.init NOBJECTS)).dirty = true ∧
      volumeLabels (mkState3 0 2 3 true
        { visible := {2, 4}, cached := {2, 4}, busy := false }
        (LabelManager.init NOBJECTS)).volume = {0, 2, 3} ∧
      (3 : ℕ) ∉ ({2, 4} : Finset ℕ)) ∧
      (((mkState3 0 2 3 true { visible := {2, 4}, cached := {2, 4}, busy := false }
          (LabelManager.init NOBJECTS)).update).2.removes = {4} ∧
        ((mkState3 0 2 3 true { visible := {2, 4}, cached := {2, 4}, busy := false }
            (LabelManager.init NOBJECTS)).update).2.cacheAdds = ∅ ∧
        ((mkState3 0 2 3 true { visible := {2, 4}, cached := {2, 4}, busy := false }
            (LabelManager.init NOBJECTS)).update).2.generated = {3}) :=
  ⟨⟨rfl, by decide, by decide⟩,
    claim_C3_scenario2 _ rfl (by decide) rfl (by decide)⟩

/-- C4 counterexample: a dirty pass on a state whose scene renders
`CURRENT_LABEL` and whose volume still contains it issues no
`remove_object` at all, yet `CURRENT_LABEL` is gone from the scene's
visible set afterwards: the exclusion of `CURRENT_LABEL` acted on the live
`visible_objects` set, not on a private snapshot. -/
theorem claim_C4_counterexample :
    (mkState1 1 true { visible := {1}, cached := ∅, busy := false }
        (LabelManager.init NOBJECTS)).scene.visible = {1} ∧
      ((mkState1 1 true { visible := {1}, cached := ∅, busy := false }
          (LabelManager.init NOBJECTS)).update).2.removes = ∅ ∧
      ((mkState1 1 true { visible := {1}, cached := ∅, busy := false }
          (LabelManager.init NOBJECTS)).update).1.scene.visible = ∅ := by
  refine ⟨rfl, by decide, by decide⟩

/-- C4 (corrected): the pass reads the scene's live visible set and, besides
the `remove_object` commands for obsolete labels and the `add_object`
commands for cache-served labels, erases `CURRENT_LABEL` from it in place:
after any dirty pass `CURRENT_LABEL` is not in `visible_objects` (even
though, when it is present in the volume, no `remove_object` was issued for
it); every other label is in the final visible set exactly when it survived
the removals or was added from cache. -/
theorem claim_C4_live_visible_set {a b c : ℕ} (s : RMState a b c)
    (hd : s.dirty = true) :
    CURRENT_LABEL ∉ (s.update).1.scene.visible ∧
      (CURRENT_LABEL ∈ volumeLabels s.volume →
        CURRENT_LABEL ∉ (s.update).2.removes) ∧
      ∀ l : ℕ, l ≠ CURRENT_LABEL →
        (l ∈ (s.update).1.scene.visible ↔
          (l ∈ s.scene.visible ∧ l ∉ (s.update).2.removes) ∨
            l ∈ (s.update).2.cacheAdds) := by
  rw [update_fst_of_dirty s hd, update_snd_of_dirty s hd]
  refine ⟨?_, ?_, ?_⟩
  · show CURRENT_LABEL ∉ s.oldAfterExclusion ∪ s.knownSet
    rw [Finset.mem_union]
    push_neg
    exact ⟨Finset.not_mem_erase _ _, current_not_mem_knownSet s⟩
  · intro hp
    show CURRENT_LABEL ∉ s.removeSet
    unfold RMState.removeSet
    rw [Finset.mem_sdiff]
    push_neg
    intro _
    exact Finset.mem_erase.mpr ⟨by decide, hp⟩
  · intro l hl
    show l ∈ s.oldAfterExclusion ∪ s.knownSet ↔
      (l ∈ s.scene.visible ∧ l ∉ s.removeSet) ∨ l ∈ s.knownSet
    unfold RMState.oldAfterExclusion RMState.oldAfterRemoves RMState.removeSet
    simp only [Finset.mem_union, Finset.mem_erase, Finset.mem_sdiff]
    constructor
    · rintro (⟨-, hx⟩ | hk)
      · exact Or.inl hx
      · exact Or.inr hk
    · rintro (hx | hk)
      · exact Or.inl ⟨hl, hx⟩
      · exact Or.inr hk

/-- C4 witness: the corrected statement instantiated at a dirty one-voxel
state rendering `CURRENT_LABEL`. -/
theorem claim_C4_live_visible_set_witness :
    (mkState1 1 true { visible := {1}, cached := {1}, busy := false }
        (LabelManager.init NOBJECTS)).dirty = true ∧
      CURRENT_LABEL ∉ ((mkState1 1 true
        { visible := {1}, cached := {1}, busy := false }
        (LabelManager.init NOBJECTS)).update).1.scene.visible :=
  ⟨rfl, (claim_C4_live_visible_set _ rfl).1⟩

end VolumeRendering
